import Mathlib

/-!
Shallow embedding of the `rpc-websocket-client` library (JSON-RPC 2.0 client
over WebSocket).  The repository ships three copies of the client logic: the
TypeScript source, a CommonJS transpilation and an ES5 dist bundle.  The two
transpiled copies are textually equivalent in logic; the embedding below
follows the ES5 dist bundle (`dist/rpc-websocket-client.es5.js`), with the
TypeScript source's classifier embedded separately (prefix `ts`) and the
CommonJS copy's classifier embedded separately (prefix `cjs`) where claims
compare the copies.

JavaScript values delivered by `JSON.parse` are modelled by the inductive
`Json` below.  Machine reals (JS numbers) are modelled as `Int`: every
operation the claims exercise only ever consults a number through JS
truthiness (`0` falsy, everything else truthy) or key presence.
-/

/-- A JSON value as produced by `JSON.parse`. -/
inductive Json where
  | null
  | bool (b : Bool)
  | num (n : Int)
  | str (s : String)
  | arr (elems : List Json)
  | obj (fields : List (String × Json))

/-- JavaScript truthiness of a value (`!!v`). -/
def truthy : Json → Bool
  | .null => false
  | .bool b => b
  | .num n => !(n == 0)
  | .str s => !(s == "")
  | .arr _ => true
  | .obj _ => true

/-- First-match association-list lookup (JS object property access; keys of a
parsed JSON object are unique, so first-match is exact). -/
def lookupA {α : Type} : List (String × α) → String → Option α
  | [], _ => none
  | p :: rest, k => if p.1 == k then some p.2 else lookupA rest k

/-- JS property access `data[k]`: `none` models `undefined` (missing property
or access on a primitive). -/
def getField : Json → String → Option Json
  | .obj fields, k => lookupA fields k
  | _, _ => none

/-- Truthiness of a possibly-`undefined` JS value (`!!data[k]`). -/
def truthyOpt : Option Json → Bool
  | none => false
  | some v => truthy v

/-- JS string coercion of a primitive value, as used when a value indexes an
object (`idAwaiter[data.id]`) or is interpolated into a template string.
Composite values (arrays/objects) are never produced by the library's
identifier generators and are exercised by no property here, so their
JS coercion is not reproduced bit-for-bit. -/
def jsToString : Json → String
  | .null => "null"
  | .bool true => "true"
  | .bool false => "false"
  | .num n => toString n
  | .str s => s
  | .arr _ => "array"
  | .obj _ => "[object Object]"

/-- The string key under which `idAwaiter[data.id]` stores/loads a waiter
(`undefined` coerces to the key "undefined"). -/
def jsKeyString : Option Json → String
  | none => "undefined"
  | some v => jsToString v

/- ### Message classifier (ES5 dist copy, `rpc-websocket-client.es5.js`) -/

/-- `isNotification(data) { return !data.id; }` -/
def isNotification (d : Json) : Bool := !(truthyOpt (getField d "id"))

/-- `isRequest(data) { return data.method; }` -/
def isRequest (d : Json) : Bool := truthyOpt (getField d "method")

/-- `isSuccessResponse(data) { return data.hasOwnProperty("result"); }` -/
def isSuccessResponse (d : Json) : Bool := (getField d "result").isSome

/-- `isErrorResponse(data) { return data.hasOwnProperty("error"); }` -/
def isErrorResponse (d : Json) : Bool := (getField d "error").isSome

/-- `isRpcError(data) { return typeof data?.code !== 'undefined'; }` -/
def isRpcError (d : Json) : Bool := (getField d "code").isSome

/-- The tag the dispatcher's if/else chain assigns to an inbound object;
`unclassified` is the fall-through of the chain (a silently dropped frame). -/
inductive MsgClass where
  | notification
  | request
  | success
  | error
  | unclassified
deriving DecidableEq, Repr

/-- The if/else chain of `listenMessages`' `onmessage` handler (ES5 copy). -/
def classify (d : Json) : MsgClass :=
  if isNotification d then .notification
  else if isRequest d then .request
  else if isSuccessResponse d then .success
  else if isErrorResponse d then .error
  else .unclassified

/- ### Message classifier (TypeScript source copy) -/

/-- TS source: `isNotification(data) { return !(data as any).id; }` -/
def tsIsNotification (d : Json) : Bool := !(truthyOpt (getField d "id"))

/-- TS source: `isRequest(data) { return (data as any).method; }` -/
def tsIsRequest (d : Json) : Bool := truthyOpt (getField d "method")

/-- TS source: `isSuccessResponse(data) { return (data as any).result; }`
(truthiness, not key presence). -/
def tsIsSuccessResponse (d : Json) : Bool := truthyOpt (getField d "result")

/-- TS source: `isErrorResponse(data) { return (data as any).error; }`
(truthiness, not key presence). -/
def tsIsErrorResponse (d : Json) : Bool := truthyOpt (getField d "error")

/-- The if/else chain of the TypeScript source's `onmessage` handler. -/
def tsClassify (d : Json) : MsgClass :=
  if tsIsNotification d then .notification
  else if tsIsRequest d then .request
  else if tsIsSuccessResponse d then .success
  else if tsIsErrorResponse d then .error
  else .unclassified

/- ### Message classifier (CommonJS transpiled copy) -/

/-- CJS copy: `isNotification(data) { return !data.id; }` -/
def cjsIsNotification (d : Json) : Bool := !(truthyOpt (getField d "id"))

/-- CJS copy: `isRequest(data) { return data.method; }` -/
def cjsIsRequest (d : Json) : Bool := truthyOpt (getField d "method")

/-- CJS copy: `isSuccessResponse(data) { return data.hasOwnProperty("result"); }` -/
def cjsIsSuccessResponse (d : Json) : Bool := (getField d "result").isSome

/-- CJS copy: `isErrorResponse(data) { return data.hasOwnProperty("error"); }` -/
def cjsIsErrorResponse (d : Json) : Bool := (getField d "error").isSome

/-- The if/else chain of the CommonJS copy's `onmessage` handler. -/
def cjsClassify (d : Json) : MsgClass :=
  if cjsIsNotification d then .notification
  else if cjsIsRequest d then .request
  else if cjsIsSuccessResponse d then .success
  else if cjsIsErrorResponse d then .error
  else .unclassified

/- ### Outbound builder -/

/-- `RpcVersions.RPC_VERSION = "2.0"` -/
def RpcVersions.RPC_VERSION : String := "2.0"

/-- The `params` portion of a built envelope: `if (params) { data.params = params; }`
(JS truthiness: an absent or falsy `params` argument adds no field). -/
def paramsField : Option Json → List (String × Json)
  | some p => if truthy p then [("params", p)] else []
  | none => []

/-- `buildRequestBase`: `{ id: this.idFn(), method }` plus `params` if truthy.
The generated identifier is passed in (`idFn` is a pluggable generator whose
default returns a fresh UUID string). -/
def buildRequestBase (id : Json) (method : String) (params : Option Json) : Json :=
  Json.obj ([("id", id), ("method", Json.str method)] ++ paramsField params)

/-- `buildNotificationBase`: `{ method }` plus `params` if truthy. -/
def buildNotificationBase (method : String) (params : Option Json) : Json :=
  Json.obj ([("method", Json.str method)] ++ paramsField params)

/-- `buildRpcSuccessResponseBase`: `{ id, result }`. -/
def buildRpcSuccessResponseBase (id : Json) (result : Json) : Json :=
  Json.obj [("id", id), ("result", result)]

/-- `buildRpcErrorResponseBase`: `{ id, error }`. -/
def buildRpcErrorResponseBase (id : Json) (error : Json) : Json :=
  Json.obj [("id", id), ("error", error)]

/-- JS property assignment `data[k] = v` on an object whose keys do not yet
include `k` (the builders only ever add the fresh key "jsonrpc"). -/
def setField (j : Json) (k : String) (v : Json) : Json :=
  match j with
  | .obj fields => .obj (fields ++ [(k, v)])
  | other => other

/-- `buildRequest`: the base envelope plus `data.jsonrpc = RPC_VERSION`. -/
def buildRequest (id : Json) (method : String) (params : Option Json) : Json :=
  setField (buildRequestBase id method params) "jsonrpc" (Json.str RpcVersions.RPC_VERSION)

/-- `buildNotification`: the base envelope plus `data.jsonrpc = RPC_VERSION`. -/
def buildNotification (method : String) (params : Option Json) : Json :=
  setField (buildNotificationBase method params) "jsonrpc" (Json.str RpcVersions.RPC_VERSION)

/-- `buildRpcSuccessResponse`: the base envelope plus `data.jsonrpc = RPC_VERSION`. -/
def buildRpcSuccessResponse (id : Json) (result : Json) : Json :=
  setField (buildRpcSuccessResponseBase id result) "jsonrpc" (Json.str RpcVersions.RPC_VERSION)

/-- `buildRpcErrorResponse`: the base envelope plus `data.jsonrpc = RPC_VERSION`. -/
def buildRpcErrorResponse (id : Json) (error : Json) : Json :=
  setField (buildRpcErrorResponseBase id error) "jsonrpc" (Json.str RpcVersions.RPC_VERSION)

/- ### Client state (`RpcWebSocketClient`) and the event-driven semantics -/

/-- The resolution of a `call(...)` promise.  `resolved`/`rejected` come from
the waiter closure (`resolve(responseData)` / `reject(responseData)`);
`timedOut` is the timeout closure's `reject` carrying its message string. -/
inductive CallOutcome where
  | resolved (v : Json)
  | rejected (v : Json)
  | timedOut (msg : String)

/-- `RpcWebSocketConfig` (`{ responseTimeout: number }`); `none` models an
`undefined` value written by `configure`. -/
structure RpcWebSocketConfig where
  responseTimeout : Option Nat

/-- JS truthiness of `config.responseTimeout` (`if (this.config.responseTimeout)`). -/
def timeoutEnabled : Option Nat → Bool
  | none => false
  | some n => !(n == 0)

/-- Observable state of one `RpcWebSocketClient` instance.
`idAwaiter` holds the keys under which a waiter closure is registered (the
closure's behaviour is fixed by the source and is inlined in `awaiterBody`);
`timers` holds the armed timeout timers with the `method` each closure
captured; `settled` records each call promise's first resolution (a JS
promise settles at most once); `attempts` records every invocation of a
`resolve`/`reject` continuation, keyed by the call's identifier, so that
"resumed at most once" is expressible.  Identifiers are assumed unique among
in-flight calls (the spec acknowledges generator collisions as an unhandled
defect class). -/
structure ClientState where
  idAwaiter : List String
  timers : List (String × String)
  settled : List (String × CallOutcome)
  attempts : List String
  cfg : RpcWebSocketConfig
  noRpcActive : Bool

/-- The state of a freshly constructed client (`responseTimeout: 10000`,
versioned builders installed). -/
def initialClient : ClientState :=
  { idAwaiter := [], timers := [], settled := [], attempts := [],
    cfg := { responseTimeout := some 10000 }, noRpcActive := false }

/-- Remove every pair stored under key `k` (JS `delete obj[k]`; keys are
unique, so this deletes the one property). -/
def removeKey {α : Type} : List (String × α) → String → List (String × α)
  | [], _ => []
  | p :: rest, k => if p.1 == k then removeKey rest k else p :: removeKey rest k

/-- Remove an identifier from the waiter-key set. -/
def removeId : List String → String → List String
  | [], _ => []
  | x :: xs, id => if x == id then removeId xs id else x :: removeId xs id

/-- Boolean membership in the waiter-key set (is `idAwaiter[key]` defined?). -/
def memId : List String → String → Bool
  | [], _ => false
  | x :: xs, id => if x == id then true else memId xs id

/-- Number of resume attempts recorded against an identifier. -/
def countId : List String → String → Nat
  | [], _ => 0
  | x :: xs, id => (if x == id then 1 else 0) + countId xs id

/-- Resume attempts made against the call registered under `id`. -/
def attemptsOf (s : ClientState) (id : String) : Nat := countId s.attempts id

/-- Invoke `resolve`/`reject` of the promise registered under `id`: the
attempt is recorded, and the promise keeps its first outcome (a JS promise
ignores later settlement attempts). -/
def settle (id : String) (oc : CallOutcome) (s : ClientState) : ClientState :=
  { s with
    attempts := id :: s.attempts,
    settled :=
      match lookupA s.settled id with
      | some _ => s.settled
      | none => (id, oc) :: s.settled }

/-- The timeout message built by the timeout closure (ES5 copy):
`"Awaiting response to \"" + method + "\" with id: " + id + " timed out."`. -/
def timeoutMessage (method id : String) : String :=
  "Awaiting response to \"" ++ method ++ "\" with id: " ++ id ++ " timed out."

/-- The executor body of `call(method, params)` after the envelope is built
with fresh identifier `id`: arm a timeout timer if `config.responseTimeout`
is truthy, then register the waiter under `id` (overwriting any previous
entry), then send. -/
def register (id method : String) (s : ClientState) : ClientState :=
  { s with
    timers :=
      if timeoutEnabled s.cfg.responseTimeout then (id, method) :: s.timers
      else s.timers,
    idAwaiter := id :: removeId s.idAwaiter id }

/-- The timeout closure firing for `id` (it can only fire while its timer is
armed): consume the timer, `delete this.idAwaiter[data.id]`, then
`reject(...)` with the descriptive message. -/
def timeoutFire (id : String) (s : ClientState) : ClientState :=
  match lookupA s.timers id with
  | none => s
  | some method =>
      settle id (.timedOut (timeoutMessage method id))
        { s with timers := removeKey s.timers id,
                 idAwaiter := removeId s.idAwaiter id }

/-- The waiter closure registered by `call`, invoked by the dispatcher with
the delivered payload: `clearInterval(timeout)`, `delete this.idAwaiter[id]`,
then reject if `isRpcError(responseData)` else resolve. -/
def awaiterBody (payload : Json) (id : String) (s : ClientState) : ClientState :=
  let s' := { s with timers := removeKey s.timers id,
                     idAwaiter := removeId s.idAwaiter id }
  if isRpcError payload then settle id (.rejected payload) s'
  else settle id (.resolved payload) s'

/-- One fan-out performed by the dispatcher: the loop over the given
category's subscriber list, fed the indicated payload. -/
inductive Fanout where
  | anyMessage (d : Json)
  | notification (d : Json)
  | request (d : Json)
  | successResponse (d : Json)
  | errorResponse (d : Json)

/-- An exception escaping the dispatch routine. -/
inductive DispatchError where
  /-- `TypeError`: `this.idAwaiter[data.id] is not a function` — a response
  arrived whose identifier has no registered waiter. -/
  | awaiterNotAFunction (key : String)

/-- The `onmessage` handler installed by `listenMessages` (ES5 copy), applied
to an already-parsed frame: fan out to `onAnyMessageHandlers`, classify,
fan out to the category's subscribers, and for a response invoke
`this.idAwaiter[data.id](payload)`.  Returns the fan-outs performed (in
order) and either the updated state or the exception thrown. -/
def dispatch (s : ClientState) (d : Json) : List Fanout × Except DispatchError ClientState :=
  if isNotification d then
    ([Fanout.anyMessage d, Fanout.notification d], Except.ok s)
  else if isRequest d then
    ([Fanout.anyMessage d, Fanout.request d], Except.ok s)
  else
    match getField d "result" with
    | some r =>
        let key := jsKeyString (getField d "id")
        if memId s.idAwaiter key then
          ([Fanout.anyMessage d, Fanout.successResponse d],
            Except.ok (awaiterBody r key s))
        else
          ([Fanout.anyMessage d, Fanout.successResponse d],
            Except.error (DispatchError.awaiterNotAFunction key))
    | none =>
        match getField d "error" with
        | some er =>
            let key := jsKeyString (getField d "id")
            if memId s.idAwaiter key then
              ([Fanout.anyMessage d, Fanout.errorResponse d],
                Except.ok (awaiterBody er key s))
            else
              ([Fanout.anyMessage d, Fanout.errorResponse d],
                Except.error (DispatchError.awaiterNotAFunction key))
        | none => ([Fanout.anyMessage d], Except.ok s)

/-- The externally visible events that mutate the pending-call machinery. -/
inductive Event where
  /-- `call(method, params)` ran its executor with fresh identifier `id`. -/
  | callRegister (id method : String)
  /-- The timeout timer armed for `id` fires. -/
  | timerFire (id : String)
  /-- The transport delivers a parsed frame to the `onmessage` handler. -/
  | deliver (d : Json)
  /-- `configure({ responseTimeout })`. -/
  | configureTimeout (t : Option Nat)

/-- One scheduler step.  A `deliver` whose dispatch throws leaves the state
as the handler found it: the exception is raised before any state mutation. -/
def step (s : ClientState) : Event → ClientState
  | .callRegister id method => register id method s
  | .timerFire id => timeoutFire id s
  | .deliver d =>
      match (dispatch s d).2 with
      | .ok s' => s'
      | .error _ => s
  | .configureTimeout t => { s with cfg := { responseTimeout := t } }

/-- Run a sequence of events. -/
def run (s : ClientState) : List Event → ClientState
  | [] => s
  | e :: es => run (step s e) es

/-- Does this event register a new call under `id`? -/
def registersId (id : String) : Event → Bool
  | .callRegister i _ => i == id
  | _ => false

/-- The waiter-table key a delivered frame would be matched against, when the
frame classifies as a response (the only classes that consult the table). -/
def deliverKey : Event → Option String
  | .deliver d =>
      if isNotification d then none
      else if isRequest d then none
      else if (getField d "result").isSome || (getField d "error").isSome then
        some (jsKeyString (getField d "id"))
      else none
  | _ => none

/-- Does this event interact with the pending call registered under `id`? -/
def touchesId (id : String) : Event → Bool
  | .callRegister i _ => i == id
  | .timerFire i => i == id
  | .deliver d => deliverKey (Event.deliver d) == some id
  | .configureTimeout _ => false

/-- Is this recorded promise outcome a timeout rejection? -/
def isTimedOut : Option CallOutcome → Bool
  | some (.timedOut _) => true
  | _ => false

/-- `noRpc()` swaps every builder reference to its `...Base` variant; the
swap is modelled by the `noRpcActive` flag the session builders consult. -/
def noRpc (s : ClientState) : ClientState := { s with noRpcActive := true }

/-- The request builder the session currently has installed. -/
def sessionBuildRequest (s : ClientState) (id : Json) (method : String)
    (params : Option Json) : Json :=
  if s.noRpcActive then buildRequestBase id method params
  else buildRequest id method params

/-- The notification builder the session currently has installed. -/
def sessionBuildNotification (s : ClientState) (method : String)
    (params : Option Json) : Json :=
  if s.noRpcActive then buildNotificationBase method params
  else buildNotification method params

/-- The success-response builder the session currently has installed. -/
def sessionBuildRpcSuccessResponse (s : ClientState) (id result : Json) : Json :=
  if s.noRpcActive then buildRpcSuccessResponseBase id result
  else buildRpcSuccessResponse id result

/-- The error-response builder the session currently has installed. -/
def sessionBuildRpcErrorResponse (s : ClientState) (id error : Json) : Json :=
  if s.noRpcActive then buildRpcErrorResponseBase id error
  else buildRpcErrorResponse id error

/- ### Event fan-out loops -/

/-- The dispatcher's `for (const handler of handlers) handler(data);` loop
over one category's subscriber list, instrumented with the indices (in
registration order) of the callbacks actually invoked.  A callback's throw
propagates out of the unguarded loop: the traversal stops, later callbacks
are not invoked. -/
def runHandlersFrom (hs : List (Json → Except Nat Unit)) (d : Json)
    (i : Nat) : List Nat × Option Nat :=
  match hs with
  | [] => ([], none)
  | h :: rest =>
      match h d with
      | .error e => ([i], some e)
      | .ok _ =>
          let r := runHandlersFrom rest d (i + 1)
          (i :: r.1, r.2)

/-- Run one subscriber list from the front: invoked indices and the first
uncaught exception, if any. -/
def runHandlers (hs : List (Json → Except Nat Unit)) (d : Json) :
    List Nat × Option Nat :=
  runHandlersFrom hs d 0

/- ### Helper lemmas -/

theorem lookupA_removeKey_self {α : Type} (xs : List (String × α)) (k : String) :
    lookupA (removeKey xs k) k = none := by
  induction xs with
  | nil => rfl
  | cons p rest ih =>
      by_cases h : p.1 = k
      · simp [removeKey, h, ih]
      · simp [removeKey, lookupA, h, ih]

theorem lookupA_removeKey_ne {α : Type} (xs : List (String × α)) {k k' : String}
    (h : k' ≠ k) : lookupA (removeKey xs k) k' = lookupA xs k' := by
  induction xs with
  | nil => rfl
  | cons p rest ih =>
      by_cases hp : p.1 = k
      · simp [removeKey, lookupA, hp, ih, Ne.symm h]
      · simp [removeKey, lookupA, hp, ih]

theorem memId_removeId_self (xs : List String) (id : String) :
    memId (removeId xs id) id = false := by
  induction xs with
  | nil => rfl
  | cons x rest ih =>
      by_cases h : x = id
      · simp [removeId, h, ih]
      · simp [removeId, memId, h, ih]

theorem memId_removeId_ne (xs : List String) {id id' : String} (h : id' ≠ id) :
    memId (removeId xs id) id' = memId xs id' := by
  induction xs with
  | nil => rfl
  | cons x rest ih =>
      by_cases hx : x = id
      · simp [removeId, memId, hx, ih, Ne.symm h]
      · simp [removeId, memId, hx, ih]

theorem lookupA_append_left_none {α : Type} (xs ys : List (String × α)) (k : String)
    (h : lookupA xs k = none) : lookupA (xs ++ ys) k = lookupA ys k := by
  induction xs with
  | nil => rfl
  | cons p rest ih =>
      by_cases hp : p.1 = k
      · simp [lookupA, hp] at h
      · simp [lookupA, hp] at h ⊢
        exact ih h

theorem countId_cons_ne {x id : String} (xs : List String) (h : x ≠ id) :
    countId (x :: xs) id = countId xs id := by
  simp [countId, h]

theorem attemptsOf_settle (s : ClientState) (i id : String) (oc : CallOutcome) :
    attemptsOf (settle i oc s) id =
      (if i == id then 1 else 0) + attemptsOf s id := rfl

theorem settle_timers (s : ClientState) (i : String) (oc : CallOutcome) :
    (settle i oc s).timers = s.timers := rfl

theorem settle_idAwaiter (s : ClientState) (i : String) (oc : CallOutcome) :
    (settle i oc s).idAwaiter = s.idAwaiter := rfl

theorem lookupA_settle_ne (s : ClientState) {i id : String} (oc : CallOutcome)
    (h : id ≠ i) : lookupA (settle i oc s).settled id = lookupA s.settled id := by
  unfold settle
  cases hpre : lookupA s.settled i with
  | some v => simp [hpre]
  | none => simp [hpre, lookupA, Ne.symm h]

theorem lookupA_settle_self (s : ClientState) {i : String} (oc : CallOutcome)
    (h : lookupA s.settled i = none) :
    lookupA (settle i oc s).settled i = some oc := by
  unfold settle
  simp [h, lookupA]

/-- Every effect a delivered frame can have on the client state: either the
dispatch leaves the state unchanged (non-response frames, or a thrown
`TypeError` before any mutation), or the frame is a response whose key has a
registered waiter, and the waiter body runs on the delivered payload. -/
theorem step_deliver_cases (s : ClientState) (d : Json) :
    step s (Event.deliver d) = s ∨
    ∃ payload,
      deliverKey (Event.deliver d) = some (jsKeyString (getField d "id")) ∧
      memId s.idAwaiter (jsKeyString (getField d "id")) = true ∧
      step s (Event.deliver d) =
        awaiterBody payload (jsKeyString (getField d "id")) s := by
  by_cases h1 : isNotification d
  · left; simp [step, dispatch, h1]
  · by_cases h2 : isRequest d
    · left; simp [step, dispatch, h1, h2]
    · cases hr : getField d "result" with
      | some r =>
          by_cases hm : memId s.idAwaiter (jsKeyString (getField d "id"))
          · right
            refine ⟨r, ?_, hm, ?_⟩
            · simp [deliverKey, h1, h2, hr]
            · simp [step, dispatch, h1, h2, hr, hm]
          · left
            simp [step, dispatch, h1, h2, hr, hm]
      | none =>
          cases he : getField d "error" with
          | some er =>
              by_cases hm : memId s.idAwaiter (jsKeyString (getField d "id"))
              · right
                refine ⟨er, ?_, hm, ?_⟩
                · simp [deliverKey, h1, h2, hr, he]
                · simp [step, dispatch, h1, h2, hr, he, hm]
              · left
                simp [step, dispatch, h1, h2, hr, he, hm]
          | none =>
              left
              simp [step, dispatch, h1, h2, hr, he]

/- ### Invariants of the pending-call table -/

/-- Mutual-exclusion invariant of one pending call: its continuation has been
invoked at most once, and once invoked, both its timer and its waiter are
gone. -/
def InvC1 (id : String) (s : ClientState) : Prop :=
  attemptsOf s id ≤ 1 ∧
  (attemptsOf s id = 1 →
    lookupA s.timers id = none ∧ memId s.idAwaiter id = false)

theorem attemptsOf_mk (s : ClientState) (ts : List (String × String))
    (ia : List String) (id : String) :
    attemptsOf { s with timers := ts, idAwaiter := ia } id = attemptsOf s id := rfl

theorem invC1_awaiterBody {id : String} (key : String) (payload : Json)
    (s : ClientState) (hinv : InvC1 id s)
    (hm : memId s.idAwaiter key = true) :
    InvC1 id (awaiterBody payload key s) := by
  unfold awaiterBody
  by_cases hkey : key = id
  · subst hkey
    have apre : attemptsOf s key = 0 := by
      by_contra hne0
      have h1 : attemptsOf s key = 1 := by have := hinv.1; omega
      have := (hinv.2 h1).2
      rw [this] at hm
      cases hm
    have main : ∀ oc, InvC1 key
        (settle key oc { s with timers := removeKey s.timers key,
                                idAwaiter := removeId s.idAwaiter key }) := by
      intro oc
      constructor
      · rw [attemptsOf_settle, attemptsOf_mk, apre]
        simp
      · intro _
        exact ⟨lookupA_removeKey_self s.timers key, memId_removeId_self s.idAwaiter key⟩
    by_cases hrpc : isRpcError payload
    · simpa [hrpc] using main (.rejected payload)
    · simpa [hrpc] using main (.resolved payload)
  · have main : ∀ oc, InvC1 id
        (settle key oc { s with timers := removeKey s.timers key,
                                idAwaiter := removeId s.idAwaiter key }) := by
      intro oc
      constructor
      · rw [attemptsOf_settle, attemptsOf_mk]
        simp [hkey]
        exact hinv.1
      · intro h1
        rw [attemptsOf_settle, attemptsOf_mk] at h1
        simp [hkey] at h1
        obtain ⟨ht, ha⟩ := hinv.2 h1
        constructor
        · show lookupA (removeKey s.timers key) id = none
          rw [lookupA_removeKey_ne s.timers (Ne.symm hkey)]
          exact ht
        · show memId (removeId s.idAwaiter key) id = false
          rw [memId_removeId_ne s.idAwaiter (Ne.symm hkey)]
          exact ha
    by_cases hrpc : isRpcError payload
    · simpa [hrpc] using main (.rejected payload)
    · simpa [hrpc] using main (.resolved payload)

theorem invC1_step (id : String) (s : ClientState) (e : Event)
    (hinv : InvC1 id s) (hne : registersId id e = false) :
    InvC1 id (step s e) := by
  cases e with
  | callRegister i m =>
      have hi : ¬ i = id := by
        intro h; subst h; simp [registersId] at hne
      constructor
      · exact hinv.1
      · intro h1
        obtain ⟨ht, ha⟩ := hinv.2 h1
        constructor
        · show lookupA (register i m s).timers id = none
          unfold register
          by_cases hen : timeoutEnabled s.cfg.responseTimeout
          · simp [hen, lookupA, hi, ht]
          · simp [hen, ht]
        · show memId (register i m s).idAwaiter id = false
          unfold register
          simp only
          show memId (i :: removeId s.idAwaiter i) id = false
          simp [memId, hi, memId_removeId_ne s.idAwaiter (Ne.symm hi), ha]
  | timerFire i =>
      by_cases hi : i = id
      · subst hi
        cases hm : lookupA s.timers i with
        | none => simpa [step, timeoutFire, hm] using hinv
        | some m =>
            have apre : attemptsOf s i = 0 := by
              by_contra hne0
              have h1 : attemptsOf s i = 1 := by have := hinv.1; omega
              have := (hinv.2 h1).1
              rw [this] at hm
              cases hm
            show InvC1 i (timeoutFire i s)
            unfold timeoutFire
            rw [hm]
            constructor
            · rw [attemptsOf_settle, attemptsOf_mk, apre]
              simp
            · intro _
              exact ⟨lookupA_removeKey_self s.timers i, memId_removeId_self s.idAwaiter i⟩
      · cases hm : lookupA s.timers i with
        | none => simpa [step, timeoutFire, hm] using hinv
        | some m =>
            show InvC1 id (timeoutFire i s)
            unfold timeoutFire
            rw [hm]
            constructor
            · rw [attemptsOf_settle, attemptsOf_mk]
              simp [hi]
              exact hinv.1
            · intro h1
              rw [attemptsOf_settle, attemptsOf_mk] at h1
              simp [hi] at h1
              obtain ⟨ht, ha⟩ := hinv.2 h1
              constructor
              · show lookupA (removeKey s.timers i) id = none
                rw [lookupA_removeKey_ne s.timers (Ne.symm hi)]
                exact ht
              · show memId (removeId s.idAwaiter i) id = false
                rw [memId_removeId_ne s.idAwaiter (Ne.symm hi)]
                exact ha
  | deliver d =>
      rcases step_deliver_cases s d with heq | ⟨payload, _, hm, heq⟩
      · rw [heq]; exact hinv
      · rw [heq]; exact invC1_awaiterBody _ payload s hinv hm
  | configureTimeout t =>
      exact hinv

theorem invC1_run (id : String) (s : ClientState) (tr : List Event)
    (h : InvC1 id s) (hno : ∀ e ∈ tr, registersId id e = false) :
    InvC1 id (run s tr) := by
  induction tr generalizing s with
  | nil => exact h
  | cons e es ih =>
      exact ih (step s e)
        (invC1_step id s e h (hno e (List.mem_cons_self e es)))
        (fun e' he' => hno e' (List.mem_cons_of_mem e he'))

/-- Invariant behind the disabled-timeout guarantee: no timer is armed for
the identifier, and its promise was never rejected by the timeout path. -/
def InvC5 (id : String) (s : ClientState) : Prop :=
  lookupA s.timers id = none ∧ isTimedOut (lookupA s.settled id) = false

theorem isTimedOut_settle {oc : CallOutcome} (s : ClientState) (i id : String)
    (hoc : isTimedOut (some oc) = false)
    (hpre : isTimedOut (lookupA s.settled id) = false) :
    isTimedOut (lookupA (settle i oc s).settled id) = false := by
  by_cases hi : id = i
  · subst hi
    cases hpre2 : lookupA s.settled id with
    | some v =>
        have hs : (settle id oc s).settled = s.settled := by
          unfold settle; rw [hpre2]
        rw [hs, hpre2]
        rw [hpre2] at hpre
        exact hpre
    | none =>
        rw [lookupA_settle_self s oc hpre2]
        exact hoc
  · rw [lookupA_settle_ne s oc hi]
    exact hpre

theorem lookupA_removeKey_none {α : Type} (xs : List (String × α)) (k k' : String)
    (h : lookupA xs k' = none) : lookupA (removeKey xs k) k' = none := by
  by_cases hk : k' = k
  · subst hk; exact lookupA_removeKey_self xs k'
  · rw [lookupA_removeKey_ne xs hk]; exact h

theorem invC5_step (id : String) (s : ClientState) (e : Event)
    (hinv : InvC5 id s) (hne : registersId id e = false) :
    InvC5 id (step s e) := by
  cases e with
  | callRegister i m =>
      have hi : ¬ i = id := by
        intro h; subst h; simp [registersId] at hne
      constructor
      · show lookupA (register i m s).timers id = none
        unfold register
        by_cases hen : timeoutEnabled s.cfg.responseTimeout
        · simp [hen, lookupA, hi, hinv.1]
        · simp [hen, hinv.1]
      · exact hinv.2
  | timerFire i =>
      by_cases hi : i = id
      · subst hi
        show InvC5 i (timeoutFire i s)
        unfold timeoutFire
        rw [hinv.1]
        exact hinv
      · cases hm : lookupA s.timers i with
        | none => simpa [step, timeoutFire, hm] using hinv
        | some m =>
            show InvC5 id (timeoutFire i s)
            unfold timeoutFire
            rw [hm]
            constructor
            · show lookupA (removeKey s.timers i) id = none
              exact lookupA_removeKey_none s.timers i id hinv.1
            · rw [lookupA_settle_ne _ _ (Ne.symm hi)]
              exact hinv.2
  | deliver d =>
      rcases step_deliver_cases s d with heq | ⟨payload, _, hm, heq⟩
      · rw [heq]; exact hinv
      · rw [heq]
        unfold awaiterBody
        have base : ∀ oc, isTimedOut (some oc) = false → InvC5 id
            (settle (jsKeyString (getField d "id")) oc
              { s with timers := removeKey s.timers (jsKeyString (getField d "id")),
                       idAwaiter := removeId s.idAwaiter (jsKeyString (getField d "id")) }) := by
          intro oc hoc
          constructor
          · show lookupA (removeKey s.timers (jsKeyString (getField d "id"))) id = none
            exact lookupA_removeKey_none s.timers _ id hinv.1
          · exact isTimedOut_settle _ _ id hoc hinv.2
        by_cases hrpc : isRpcError payload
        · simpa [hrpc] using base (.rejected payload) rfl
        · simpa [hrpc] using base (.resolved payload) rfl
  | configureTimeout t =>
      exact hinv

theorem invC5_run (id : String) (s : ClientState) (tr : List Event)
    (h : InvC5 id s) (hno : ∀ e ∈ tr, registersId id e = false) :
    InvC5 id (run s tr) := by
  induction tr generalizing s with
  | nil => exact h
  | cons e es ih =>
      exact ih (step s e)
        (invC5_step id s e h (hno e (List.mem_cons_self e es)))
        (fun e' he' => hno e' (List.mem_cons_of_mem e he'))

/-- Invariant of an armed, still-unanswered call: its timer is armed with the
captured method, its waiter is registered, and its promise is unsettled. -/
def InvC6 (id method : String) (s : ClientState) : Prop :=
  lookupA s.timers id = some method ∧
  memId s.idAwaiter id = true ∧
  lookupA s.settled id = none

theorem invC6_step (id method : String) (s : ClientState) (e : Event)
    (hinv : InvC6 id method s) (hne : touchesId id e = false) :
    InvC6 id method (step s e) := by
  cases e with
  | callRegister i m =>
      have hi : ¬ i = id := by
        intro h; subst h; simp [touchesId] at hne
      refine ⟨?_, ?_, hinv.2.2⟩
      · show lookupA (register i m s).timers id = some method
        unfold register
        by_cases hen : timeoutEnabled s.cfg.responseTimeout
        · simp [hen, lookupA, hi, hinv.1]
        · simp [hen, hinv.1]
      · show memId (register i m s).idAwaiter id = true
        unfold register
        simp only
        show memId (i :: removeId (s.idAwaiter) i) id = true
        simp [memId, hi, memId_removeId_ne s.idAwaiter (Ne.symm hi), hinv.2.1]
  | timerFire i =>
      have hi : ¬ i = id := by
        intro h; subst h; simp [touchesId] at hne
      cases hm : lookupA s.timers i with
      | none => simpa [step, timeoutFire, hm] using hinv
      | some m =>
          show InvC6 id method (timeoutFire i s)
          unfold timeoutFire
          rw [hm]
          refine ⟨?_, ?_, ?_⟩
          · show lookupA (removeKey s.timers i) id = some method
            rw [lookupA_removeKey_ne s.timers (Ne.symm hi)]
            exact hinv.1
          · show memId (removeId s.idAwaiter i) id = true
            rw [memId_removeId_ne s.idAwaiter (Ne.symm hi)]
            exact hinv.2.1
          · rw [lookupA_settle_ne _ _ (Ne.symm hi)]
            exact hinv.2.2
  | deliver d =>
      rcases step_deliver_cases s d with heq | ⟨payload, hdk, hm, heq⟩
      · rw [heq]; exact hinv
      · have hkey : ¬ jsKeyString (getField d "id") = id := by
          intro h
          rw [touchesId, hdk, h] at hne
          simp at hne
        rw [heq]
        unfold awaiterBody
        have base : ∀ oc, InvC6 id method
            (settle (jsKeyString (getField d "id")) oc
              { s with timers := removeKey s.timers (jsKeyString (getField d "id")),
                       idAwaiter := removeId s.idAwaiter (jsKeyString (getField d "id")) }) := by
          intro oc
          refine ⟨?_, ?_, ?_⟩
          · show lookupA (removeKey s.timers (jsKeyString (getField d "id"))) id = some method
            rw [lookupA_removeKey_ne s.timers (Ne.symm hkey)]
            exact hinv.1
          · show memId (removeId s.idAwaiter (jsKeyString (getField d "id"))) id = true
            rw [memId_removeId_ne s.idAwaiter (Ne.symm hkey)]
            exact hinv.2.1
          · rw [lookupA_settle_ne _ _ (Ne.symm hkey)]
            exact hinv.2.2
        by_cases hrpc : isRpcError payload
        · simpa [hrpc] using base (.rejected payload)
        · simpa [hrpc] using base (.resolved payload)
  | configureTimeout t =>
      exact hinv

theorem invC6_run (id method : String) (s : ClientState) (tr : List Event)
    (h : InvC6 id method s) (hno : ∀ e ∈ tr, touchesId id e = false) :
    InvC6 id method (run s tr) := by
  induction tr generalizing s with
  | nil => exact h
  | cons e es ih =>
      exact ih (step s e)
        (invC6_step id method s e h (hno e (List.mem_cons_self e es)))
        (fun e' he' => hno e' (List.mem_cons_of_mem e he'))

/- ### Claim theorems -/

/-- Claim C1: for a call registered in the pending-call table (and its
identifier never re-registered), the two resumption paths are mutually
exclusive: across any subsequent sequence of timer firings, deliveries and
reconfigurations, the call's continuation is resumed at most once, and once
it has been resumed, both its waiter entry and its timer are gone — so the
other path, if it fires later, cannot resume the call a second time. -/
theorem c1_pending_call_single_resumption
    (s0 : ClientState) (id method : String) (tr : List Event)
    (h0 : attemptsOf s0 id = 0)
    (hno : ∀ e ∈ tr, registersId id e = false) :
    attemptsOf (run (step s0 (Event.callRegister id method)) tr) id ≤ 1 ∧
    (attemptsOf (run (step s0 (Event.callRegister id method)) tr) id = 1 →
      lookupA (run (step s0 (Event.callRegister id method)) tr).timers id = none ∧
      memId (run (step s0 (Event.callRegister id method)) tr).idAwaiter id = false) := by
  have h0' : attemptsOf (step s0 (Event.callRegister id method)) id = 0 := h0
  have hinit : InvC1 id (step s0 (Event.callRegister id method)) := by
    constructor
    · rw [h0']; omega
    · intro h1
      rw [h0'] at h1
      exact absurd h1 (by decide)
  exact invC1_run id _ tr hinit hno

/-- Concrete run for C1: register a call, let the timeout fire, then deliver
the (now unsolicited) matching response. -/
def c1TraceW : List Event :=
  [Event.timerFire "a",
   Event.deliver (Json.obj [("id", Json.str "a"), ("result", Json.num 1)])]

/-- Witness instantiating C1 on a concrete state and trace. -/
theorem c1_witness :
    attemptsOf (run (step initialClient (Event.callRegister "a" "m")) c1TraceW) "a" ≤ 1 ∧
    (attemptsOf (run (step initialClient (Event.callRegister "a" "m")) c1TraceW) "a" = 1 →
      lookupA (run (step initialClient (Event.callRegister "a" "m")) c1TraceW).timers "a" = none ∧
      memId (run (step initialClient (Event.callRegister "a" "m")) c1TraceW).idAwaiter "a" = false) :=
  c1_pending_call_single_resumption initialClient "a" "m" c1TraceW rfl
    (by intro e he; fin_cases he <;> rfl)

/-- Claim C2 counterexample: the object `{"id": 1}` is syntactically valid
JSON reaching the classifier, yet classifies as none of the four variants —
classification is not total. -/
theorem c2_totality_counterexample :
    classify (Json.obj [("id", Json.num 1)]) = MsgClass.unclassified ∧
    classify (Json.obj [("id", Json.num 1)]) ≠ MsgClass.notification ∧
    classify (Json.obj [("id", Json.num 1)]) ≠ MsgClass.request ∧
    classify (Json.obj [("id", Json.num 1)]) ≠ MsgClass.success ∧
    classify (Json.obj [("id", Json.num 1)]) ≠ MsgClass.error := by
  refine ⟨rfl, ?_, ?_, ?_, ?_⟩ <;> decide

/-- Claim C2 (amended): classification is mutually exclusive and follows the
priority order (no identifier ⇒ Notification; identifier and method ⇒
Request, never Notification; identifier and result ⇒ SuccessResponse even
with extraneous fields; identifier and error ⇒ ErrorResponse), but it is not
total: an object with a truthy identifier and none of method/result/error is
left unclassified. -/
theorem c2_classification_amended (d : Json) :
    (truthyOpt (getField d "id") = false → classify d = MsgClass.notification) ∧
    (truthyOpt (getField d "id") = true → truthyOpt (getField d "method") = true →
      classify d = MsgClass.request) ∧
    (truthyOpt (getField d "id") = true → truthyOpt (getField d "method") = false →
      (getField d "result").isSome = true → classify d = MsgClass.success) ∧
    (truthyOpt (getField d "id") = true → truthyOpt (getField d "method") = false →
      getField d "result" = none → (getField d "error").isSome = true →
      classify d = MsgClass.error) ∧
    (truthyOpt (getField d "id") = true → truthyOpt (getField d "method") = false →
      getField d "result" = none → getField d "error" = none →
      classify d = MsgClass.unclassified) := by
  refine ⟨?_, ?_, ?_, ?_, ?_⟩
  · intro h1
    simp [classify, isNotification, h1]
  · intro h1 h2
    simp [classify, isNotification, isRequest, h1, h2]
  · intro h1 h2 h3
    simp [classify, isNotification, isRequest, isSuccessResponse, h1, h2, h3]
  · intro h1 h2 h3 h4
    simp [classify, isNotification, isRequest, isSuccessResponse, isErrorResponse,
      h1, h2, h3, h4]
  · intro h1 h2 h3 h4
    simp [classify, isNotification, isRequest, isSuccessResponse, isErrorResponse,
      h1, h2, h3, h4]

/-- Witness instantiating C2's amended classification on `{"id":"a","method":"m"}`. -/
theorem c2_witness :
    truthyOpt (getField (Json.obj [("id", Json.str "a"), ("method", Json.str "m")]) "id") = true ∧
    truthyOpt (getField (Json.obj [("id", Json.str "a"), ("method", Json.str "m")]) "method") = true ∧
    classify (Json.obj [("id", Json.str "a"), ("method", Json.str "m")]) = MsgClass.request :=
  ⟨by decide, by decide,
    (c2_classification_amended (Json.obj [("id", Json.str "a"), ("method", Json.str "m")])).2.1
      (by decide) (by decide)⟩

/-- The unsolicited success response used against claim C3. -/
def c3Data : Json := Json.obj [("id", Json.str "z"), ("result", Json.num 1)]

/-- Claim C3 counterexample: delivering a success response whose identifier
has no registered waiter makes the dispatch routine throw a `TypeError`
(`this.idAwaiter[data.id]` is `undefined` and is called) — it is not the
claimed defined no-op. -/
theorem c3_missing_waiter_counterexample :
    (dispatch initialClient c3Data).2 =
      Except.error (DispatchError.awaiterNotAFunction "z") := rfl

/-- Claim C3 (amended): for an inbound success or error response whose
identifier has no registered waiter, the category subscribers are still
invoked, but the dispatch routine then raises a `TypeError` by invoking the
absent waiter; no pending operation is affected (the state is unchanged). -/
theorem c3_missing_waiter_amended (s : ClientState) (d : Json)
    (h1 : isNotification d = false) (h2 : isRequest d = false)
    (h3 : memId s.idAwaiter (jsKeyString (getField d "id")) = false)
    (h4 : (getField d "result").isSome = true ∨
          (getField d "result" = none ∧ (getField d "error").isSome = true)) :
    ((dispatch s d).1 = [Fanout.anyMessage d, Fanout.successResponse d] ∨
     (dispatch s d).1 = [Fanout.anyMessage d, Fanout.errorResponse d]) ∧
    (dispatch s d).2 =
      Except.error (DispatchError.awaiterNotAFunction (jsKeyString (getField d "id"))) ∧
    step s (Event.deliver d) = s := by
  rcases h4 with h4 | ⟨h4a, h4b⟩
  · cases hr : getField d "result" with
    | none => rw [hr] at h4; simp at h4
    | some r =>
        refine ⟨Or.inl ?_, ?_, ?_⟩ <;> simp [dispatch, step, h1, h2, hr, h3]
  · cases he : getField d "error" with
    | none => rw [he] at h4b; simp at h4b
    | some er =>
        refine ⟨Or.inr ?_, ?_, ?_⟩ <;> simp [dispatch, step, h1, h2, h4a, he, h3]

/-- Witness instantiating C3's amended statement on a fresh client. -/
theorem c3_witness :
    ((dispatch initialClient c3Data).1 =
        [Fanout.anyMessage c3Data, Fanout.successResponse c3Data] ∨
     (dispatch initialClient c3Data).1 =
        [Fanout.anyMessage c3Data, Fanout.errorResponse c3Data]) ∧
    (dispatch initialClient c3Data).2 =
      Except.error (DispatchError.awaiterNotAFunction (jsKeyString (getField c3Data "id"))) ∧
    step initialClient (Event.deliver c3Data) = initialClient :=
  c3_missing_waiter_amended initialClient c3Data rfl rfl rfl (Or.inl rfl)

/-- A client with one registered waiter under "a" (mid-`call` state). -/
def c4State : ClientState :=
  { idAwaiter := ["a"], timers := [], settled := [], attempts := [],
    cfg := { responseTimeout := some 10000 }, noRpcActive := false }

/-- A success response whose `result` value itself carries a `code` field. -/
def c4Data : Json :=
  Json.obj [("id", Json.str "a"), ("result", Json.obj [("code", Json.num 0)])]

/-- Claim C4 counterexample: a SuccessResponse whose `result` value itself
contains a `code` field does not resolve the call with the result — the
waiter's `isRpcError` test fires on the delivered payload and the call is
rejected with the result value. -/
theorem c4_success_code_counterexample :
    lookupA (step c4State (Event.deliver c4Data)).settled "a" =
      some (CallOutcome.rejected (Json.obj [("code", Json.num 0)])) ∧
    lookupA (step c4State (Event.deliver c4Data)).settled "a" ≠
      some (CallOutcome.resolved (Json.obj [("code", Json.num 0)])) := by
  constructor
  · rfl
  · intro h
    rw [show lookupA (step c4State (Event.deliver c4Data)).settled "a" =
          some (CallOutcome.rejected (Json.obj [("code", Json.num 0)])) from rfl] at h
    injection h with h'
    exact CallOutcome.noConfusion h'

/-- Claim C4 (amended): for a response whose identifier has a registered
waiter and an unsettled promise, the delivered payload (the `result` value
of a SuccessResponse, the `error` object of an ErrorResponse) becomes the
call's outcome without the dispatcher throwing: the call is rejected with
the payload verbatim when the payload carries a `code` field (in particular
a well-formed ErrorResponse error object), and resolved with the payload
otherwise (in particular a `result` that carries no `code` field). -/
theorem c4_response_outcome_amended (s : ClientState) (d : Json)
    (h1 : isNotification d = false) (h2 : isRequest d = false)
    (hm : memId s.idAwaiter (jsKeyString (getField d "id")) = true)
    (hset : lookupA s.settled (jsKeyString (getField d "id")) = none) :
    (∀ r, getField d "result" = some r →
      (dispatch s d).2 = Except.ok (awaiterBody r (jsKeyString (getField d "id")) s) ∧
      lookupA (step s (Event.deliver d)).settled (jsKeyString (getField d "id")) =
        some (if isRpcError r then CallOutcome.rejected r else CallOutcome.resolved r)) ∧
    (getField d "result" = none → ∀ er, getField d "error" = some er →
      (dispatch s d).2 = Except.ok (awaiterBody er (jsKeyString (getField d "id")) s) ∧
      lookupA (step s (Event.deliver d)).settled (jsKeyString (getField d "id")) =
        some (if isRpcError er then CallOutcome.rejected er else CallOutcome.resolved er)) := by
  constructor
  · intro r hr
    constructor
    · simp [dispatch, h1, h2, hr, hm]
    · have hstep : step s (Event.deliver d) =
          awaiterBody r (jsKeyString (getField d "id")) s := by
        simp [step, dispatch, h1, h2, hr, hm]
      rw [hstep]
      unfold awaiterBody
      by_cases hrpc : isRpcError r
      · simp only [hrpc, if_true]
        exact lookupA_settle_self _ _ hset
      · simp only [hrpc, if_false, Bool.false_eq_true]
        exact lookupA_settle_self _ _ hset
  · intro hr er he
    constructor
    · simp [dispatch, h1, h2, hr, he, hm]
    · have hstep : step s (Event.deliver d) =
          awaiterBody er (jsKeyString (getField d "id")) s := by
        simp [step, dispatch, h1, h2, hr, he, hm]
      rw [hstep]
      unfold awaiterBody
      by_cases hrpc : isRpcError er
      · simp only [hrpc, if_true]
        exact lookupA_settle_self _ _ hset
      · simp only [hrpc, if_false, Bool.false_eq_true]
        exact lookupA_settle_self _ _ hset

/-- A plain success response for claim C4's witness. -/
def c4DataW : Json := Json.obj [("id", Json.str "a"), ("result", Json.num 5)]

/-- Witness instantiating C4's amended statement: a success response whose
result has no `code` field resolves the call with the result. -/
theorem c4_witness :
    (dispatch c4State c4DataW).2 =
      Except.ok (awaiterBody (Json.num 5) (jsKeyString (getField c4DataW "id")) c4State) ∧
    lookupA (step c4State (Event.deliver c4DataW)).settled
        (jsKeyString (getField c4DataW "id")) =
      some (if isRpcError (Json.num 5) then CallOutcome.rejected (Json.num 5)
            else CallOutcome.resolved (Json.num 5)) :=
  (c4_response_outcome_amended c4State c4DataW rfl rfl rfl rfl).1 (Json.num 5) rfl

/-- Claim C5: a call registered while `config.responseTimeout` is `0` or
unset arms no timer, and across any subsequent events (timer firings,
deliveries, reconfigurations — excluding a collision re-registering the same
identifier) the call is never rejected by the timeout path: it stays pending
until a matching response settles it. -/
theorem c5_zero_timeout_never_times_out
    (s0 : ClientState) (id method : String) (tr : List Event)
    (hdis : timeoutEnabled s0.cfg.responseTimeout = false)
    (ht0 : lookupA s0.timers id = none)
    (hs0 : lookupA s0.settled id = none)
    (hno : ∀ e ∈ tr, registersId id e = false) :
    isTimedOut
      (lookupA (run (step s0 (Event.callRegister id method)) tr).settled id) = false := by
  have hinit : InvC5 id (step s0 (Event.callRegister id method)) := by
    constructor
    · show lookupA (register id method s0).timers id = none
      unfold register
      simp [hdis, ht0]
    · show isTimedOut (lookupA (register id method s0).settled id) = false
      have hsettled : (register id method s0).settled = s0.settled := rfl
      rw [hsettled, hs0]
      rfl
  exact (invC5_run id _ tr hinit hno).2

/-- A client configured with `responseTimeout: 0`. -/
def c5State : ClientState :=
  { initialClient with cfg := { responseTimeout := some 0 } }

/-- Concrete run for C5: a stray timer event for the call, a reconfiguration,
a second call whose own timer fires. -/
def c5Trace : List Event :=
  [Event.timerFire "a", Event.configureTimeout (some 5000),
   Event.callRegister "b" "n", Event.timerFire "b"]

/-- Witness instantiating C5 on a concrete state and trace. -/
theorem c5_witness :
    isTimedOut
      (lookupA (run (step c5State (Event.callRegister "a" "m")) c5Trace).settled "a") = false :=
  c5_zero_timeout_never_times_out c5State "a" "m" c5Trace rfl rfl rfl
    (by intro e he; fin_cases he <;> rfl)

/-- Claim C6: a call registered while `responseTimeout` is truthy arms a
timer; as long as no matching response (and no event touching the
identifier) arrives, the timer stays armed and the waiter registered, and
when the timer fires it removes the waiter and rejects the call with the
descriptive message naming both the method and the request identifier. -/
theorem c6_timeout_rejects_with_message
    (s0 : ClientState) (id method : String) (tr : List Event)
    (hen : timeoutEnabled s0.cfg.responseTimeout = true)
    (hs0 : lookupA s0.settled id = none)
    (hno : ∀ e ∈ tr, touchesId id e = false) :
    lookupA (run (step s0 (Event.callRegister id method)) tr).timers id = some method ∧
    memId (run (step s0 (Event.callRegister id method)) tr).idAwaiter id = true ∧
    memId (step (run (step s0 (Event.callRegister id method)) tr)
        (Event.timerFire id)).idAwaiter id = false ∧
    lookupA (step (run (step s0 (Event.callRegister id method)) tr)
        (Event.timerFire id)).settled id =
      some (CallOutcome.timedOut
        ("Awaiting response to \"" ++ method ++ "\" with id: " ++ id ++ " timed out.")) := by
  have hinit : InvC6 id method (step s0 (Event.callRegister id method)) := by
    refine ⟨?_, ?_, hs0⟩
    · show lookupA (register id method s0).timers id = some method
      unfold register
      simp [hen, lookupA]
    · show memId (register id method s0).idAwaiter id = true
      unfold register
      simp only
      show memId (id :: removeId s0.idAwaiter id) id = true
      simp [memId]
  obtain ⟨ht, ha, hs⟩ := invC6_run id method _ tr hinit hno
  refine ⟨ht, ha, ?_, ?_⟩
  · show memId (timeoutFire id (run (step s0 (Event.callRegister id method)) tr)).idAwaiter id = false
    unfold timeoutFire
    rw [ht]
    exact memId_removeId_self _ _
  · show lookupA (timeoutFire id (run (step s0 (Event.callRegister id method)) tr)).settled id = _
    unfold timeoutFire
    rw [ht]
    exact lookupA_settle_self _ _ hs

/-- Witness instantiating C6 on a fresh client with the default timeout. -/
theorem c6_witness :
    lookupA (run (step initialClient (Event.callRegister "a" "m")) []).timers "a" = some "m" ∧
    memId (run (step initialClient (Event.callRegister "a" "m")) []).idAwaiter "a" = true ∧
    memId (step (run (step initialClient (Event.callRegister "a" "m")) [])
        (Event.timerFire "a")).idAwaiter "a" = false ∧
    lookupA (step (run (step initialClient (Event.callRegister "a" "m")) [])
        (Event.timerFire "a")).settled "a" =
      some (CallOutcome.timedOut
        ("Awaiting response to \"" ++ "m" ++ "\" with id: " ++ "a" ++ " timed out.")) :=
  c6_timeout_rejects_with_message initialClient "a" "m" [] rfl rfl
    (by intro e he; exact absurd he (List.not_mem_nil e))

/-- Claim C7 counterexample: a supplied falsy `params` value (`0`) is
dropped from the built envelope (its round-trip does not return the input),
and an empty method string makes the built envelope classify as none of the
four variants rather than as a Request. -/
theorem c7_falsy_params_counterexample :
    getField (buildRequestBase (Json.str "x") "m" (some (Json.num 0))) "params" = none ∧
    classify (buildRequestBase (Json.str "x") "" none) = MsgClass.unclassified :=
  ⟨rfl, rfl⟩

/-- Claim C7 (amended): for a truthy generated identifier and a nonempty
method, building then classifying a Request envelope yields back a Request
whose method matches exactly; a supplied truthy `params` value round-trips
exactly, while an absent or falsy `params` value leaves the envelope with no
`params` field at all (never a `params: undefined`/null placeholder). -/
theorem c7_roundtrip_amended (id : Json) (method : String) (params : Option Json)
    (hid : truthy id = true) (hm : method ≠ "") :
    classify (buildRequestBase id method params) = MsgClass.request ∧
    getField (buildRequestBase id method params) "method" = some (Json.str method) ∧
    (∀ p, params = some p → truthy p = true →
      getField (buildRequestBase id method params) "params" = some p) ∧
    ((params = none ∨ ∃ p, params = some p ∧ truthy p = false) →
      getField (buildRequestBase id method params) "params" = none) := by
  have hidf : getField (buildRequestBase id method params) "id" = some id := rfl
  have hmf : getField (buildRequestBase id method params) "method" =
      some (Json.str method) := rfl
  refine ⟨?_, hmf, ?_, ?_⟩
  · have h1 : isNotification (buildRequestBase id method params) = false := by
      simp [isNotification, hidf, truthyOpt, hid]
    have h2 : isRequest (buildRequestBase id method params) = true := by
      simp [isRequest, hmf, truthyOpt, truthy, hm]
    simp [classify, h1, h2]
  · intro p hp htp
    subst hp
    simp [buildRequestBase, getField, paramsField, htp, lookupA]
  · intro h
    rcases h with h | ⟨p, hp, hfp⟩
    · subst h
      rfl
    · subst hp
      simp [buildRequestBase, getField, paramsField, hfp, lookupA]

/-- Witness instantiating C7's amended round-trip on `("m", 2)`. -/
theorem c7_witness :
    classify (buildRequestBase (Json.str "x") "m" (some (Json.num 2))) = MsgClass.request ∧
    getField (buildRequestBase (Json.str "x") "m" (some (Json.num 2))) "params" =
      some (Json.num 2) :=
  ⟨(c7_roundtrip_amended (Json.str "x") "m" (some (Json.num 2)) rfl (by decide)).1,
   (c7_roundtrip_amended (Json.str "x") "m" (some (Json.num 2)) rfl (by decide)).2.2.1
      (Json.num 2) rfl rfl⟩

theorem buildRequestBase_no_jsonrpc (id : Json) (method : String) (params : Option Json) :
    getField (buildRequestBase id method params) "jsonrpc" = none := by
  cases params with
  | none => rfl
  | some p =>
      by_cases hp : truthy p
      · simp [buildRequestBase, paramsField, hp, getField, lookupA]
      · simp [buildRequestBase, paramsField, hp, getField, lookupA]

theorem buildNotificationBase_no_jsonrpc (method : String) (params : Option Json) :
    getField (buildNotificationBase method params) "jsonrpc" = none := by
  cases params with
  | none => rfl
  | some p =>
      by_cases hp : truthy p
      · simp [buildNotificationBase, paramsField, hp, getField, lookupA]
      · simp [buildNotificationBase, paramsField, hp, getField, lookupA]

theorem getField_setField_fresh (fs : List (String × Json)) (k : String) (v : Json)
    (h : lookupA fs k = none) :
    getField (setField (Json.obj fs) k v) k = some v := by
  show lookupA (fs ++ [(k, v)]) k = some v
  rw [lookupA_append_left_none fs _ k h]
  simp [lookupA]

/-- Claim C8: every envelope built before `noRpc()` carries the
protocol-version tag `jsonrpc: "2.0"`; every envelope built after `noRpc()`
contains no `jsonrpc` key at all — for all four envelope kinds (request,
notification, success response, error response). -/
theorem c8_jsonrpc_tag (s : ClientState) (id result error : Json)
    (method : String) (params : Option Json) :
    (s.noRpcActive = false →
      getField (sessionBuildRequest s id method params) "jsonrpc" = some (Json.str "2.0") ∧
      getField (sessionBuildNotification s method params) "jsonrpc" = some (Json.str "2.0") ∧
      getField (sessionBuildRpcSuccessResponse s id result) "jsonrpc" = some (Json.str "2.0") ∧
      getField (sessionBuildRpcErrorResponse s id error) "jsonrpc" = some (Json.str "2.0")) ∧
    (getField (sessionBuildRequest (noRpc s) id method params) "jsonrpc" = none ∧
     getField (sessionBuildNotification (noRpc s) method params) "jsonrpc" = none ∧
     getField (sessionBuildRpcSuccessResponse (noRpc s) id result) "jsonrpc" = none ∧
     getField (sessionBuildRpcErrorResponse (noRpc s) id error) "jsonrpc" = none) := by
  constructor
  · intro hflag
    refine ⟨?_, ?_, ?_, ?_⟩
    · rw [sessionBuildRequest, hflag]
      simp only [Bool.false_eq_true, if_false]
      exact getField_setField_fresh _ _ _ (buildRequestBase_no_jsonrpc id method params)
    · rw [sessionBuildNotification, hflag]
      simp only [Bool.false_eq_true, if_false]
      exact getField_setField_fresh _ _ _ (buildNotificationBase_no_jsonrpc method params)
    · rw [sessionBuildRpcSuccessResponse, hflag]
      simp only [Bool.false_eq_true, if_false]
      exact getField_setField_fresh _ _ _ rfl
    · rw [sessionBuildRpcErrorResponse, hflag]
      simp only [Bool.false_eq_true, if_false]
      exact getField_setField_fresh _ _ _ rfl
  · refine ⟨?_, ?_, ?_, ?_⟩
    · show getField (buildRequestBase id method params) "jsonrpc" = none
      exact buildRequestBase_no_jsonrpc id method params
    · show getField (buildNotificationBase method params) "jsonrpc" = none
      exact buildNotificationBase_no_jsonrpc method params
    · rfl
    · rfl

/-- Witness instantiating C8 on a fresh client. -/
theorem c8_witness :
    getField (sessionBuildRequest initialClient (Json.str "x") "m" none) "jsonrpc" =
      some (Json.str "2.0") ∧
    getField (sessionBuildNotification (noRpc initialClient) "x" none) "jsonrpc" = none :=
  ⟨((c8_jsonrpc_tag initialClient (Json.str "x") Json.null Json.null "m" none).1 rfl).1,
   ((c8_jsonrpc_tag initialClient (Json.str "x") Json.null Json.null "x" none).2).2.1⟩

/-- Indices `i, i+1, ..., i+n-1`: the registration-order positions a fan-out
loop visits. -/
def idxFrom : Nat → Nat → List Nat
  | _, 0 => []
  | i, n + 1 => i :: idxFrom (i + 1) n

theorem runHandlersFrom_all_ok (hs : List (Json → Except Nat Unit)) (d : Json)
    (i : Nat) (h : ∀ g ∈ hs, g d = Except.ok ()) :
    runHandlersFrom hs d i = (idxFrom i hs.length, none) := by
  induction hs generalizing i with
  | nil => rfl
  | cons g rest ih =>
      have hg : g d = Except.ok () := h g (List.mem_cons_self g rest)
      have hrest := ih (i + 1) (fun g' hg' => h g' (List.mem_cons_of_mem g hg'))
      simp [runHandlersFrom, hg, hrest, idxFrom]

theorem runHandlersFrom_stops (pre post : List (Json → Except Nat Unit))
    (h : Json → Except Nat Unit) (e : Nat) (d : Json) (i : Nat)
    (hpre : ∀ g ∈ pre, g d = Except.ok ()) (herr : h d = Except.error e) :
    runHandlersFrom (pre ++ h :: post) d i = (idxFrom i (pre.length + 1), some e) := by
  induction pre generalizing i with
  | nil => simp [runHandlersFrom, herr, idxFrom]
  | cons g rest ih =>
      have hg : g d = Except.ok () := hpre g (List.mem_cons_self g rest)
      have hrest := ih (i + 1) (fun g' hg' => hpre g' (List.mem_cons_of_mem g hg'))
      simp [runHandlersFrom, hg, hrest, idxFrom]

/-- Claim C9 counterexample: with two registered callbacks of which the
first throws, the unguarded fan-out loop invokes only the first (invocation
trace `[0]`) — the throw prevents the second callback from running. -/
theorem c9_throw_counterexample :
    runHandlers [fun _ => Except.error 7, fun _ => Except.ok ()] Json.null =
      ([0], some 7) := rfl

/-- Claim C9 (amended): callbacks of a fan-out category are invoked in
registration order, and when none throws they all run; but the dispatch loop
is unguarded, so a callback that throws stops the traversal — the callbacks
registered after it are not invoked and the exception escapes the loop. -/
theorem c9_fanout_amended :
    (∀ (hs : List (Json → Except Nat Unit)) (d : Json),
      (∀ g ∈ hs, g d = Except.ok ()) →
      runHandlers hs d = (idxFrom 0 hs.length, none)) ∧
    (∀ (pre post : List (Json → Except Nat Unit)) (h : Json → Except Nat Unit)
        (e : Nat) (d : Json),
      (∀ g ∈ pre, g d = Except.ok ()) → h d = Except.error e →
      runHandlers (pre ++ h :: post) d = (idxFrom 0 (pre.length + 1), some e)) := by
  constructor
  · intro hs d h
    exact runHandlersFrom_all_ok hs d 0 h
  · intro pre post h e d hpre herr
    exact runHandlersFrom_stops pre post h e d 0 hpre herr

/-- Witness instantiating C9's amended statement: `[ok, throw 3, ok]` runs
callbacks 0 and 1 in order and stops. -/
theorem c9_witness :
    runHandlers ([fun _ => Except.ok ()] ++
        (fun _ => Except.error 3) :: [fun _ => Except.ok ()]) Json.null =
      (idxFrom 0 2, some 3) :=
  c9_fanout_amended.2 [fun _ => Except.ok ()] [fun _ => Except.ok ()]
    (fun _ => Except.error 3) 3 Json.null
    (by intro g hg; rw [List.mem_singleton] at hg; subst hg; rfl) rfl

/-- Claim C10 counterexample: on the frame `{"id":"a","result":0}` the ES5
dist copy classifies SuccessResponse (key presence) while the TypeScript
source copy classifies nothing (truthiness of `0`): the copies are not
behaviourally identical. -/
theorem c10_copies_counterexample :
    classify (Json.obj [("id", Json.str "a"), ("result", Json.num 0)]) =
      MsgClass.success ∧
    tsClassify (Json.obj [("id", Json.str "a"), ("result", Json.num 0)]) =
      MsgClass.unclassified :=
  ⟨rfl, rfl⟩

/-- Claim C10 (amended): the CommonJS and ES5 transpiled copies classify
identically on every input; the TypeScript source copy agrees with them only
on frames whose `result`/`error` fields, when present, are truthy (its
response tests use truthiness where the transpiled copies test key
presence; its waiter also discards the delivered payload, so the copies are
not behaviourally identical in general). -/
theorem c10_copies_amended :
    (∀ d, cjsClassify d = classify d) ∧
    (∀ d, (∀ r, getField d "result" = some r → truthy r = true) →
          (∀ er, getField d "error" = some er → truthy er = true) →
      tsClassify d = classify d) := by
  constructor
  · intro d
    rfl
  · intro d hr he
    cases hres : getField d "result" with
    | some r =>
        have htr := hr r hres
        simp [tsClassify, classify, tsIsNotification, isNotification, tsIsRequest,
          isRequest, tsIsSuccessResponse, isSuccessResponse, tsIsErrorResponse,
          isErrorResponse, hres, htr, truthyOpt]
    | none =>
        cases herr : getField d "error" with
        | some er =>
            have hte := he er herr
            simp [tsClassify, classify, tsIsNotification, isNotification, tsIsRequest,
              isRequest, tsIsSuccessResponse, isSuccessResponse, tsIsErrorResponse,
              isErrorResponse, hres, herr, hte, truthyOpt]
        | none =>
            simp [tsClassify, classify, tsIsNotification, isNotification, tsIsRequest,
              isRequest, tsIsSuccessResponse, isSuccessResponse, tsIsErrorResponse,
              isErrorResponse, hres, herr, truthyOpt]

/-- Witness instantiating C10's amended statement on `{"id":"a","result":1}`
and `{"id":"b"}`. -/
theorem c10_witness :
    tsClassify (Json.obj [("id", Json.str "a"), ("result", Json.num 1)]) =
      classify (Json.obj [("id", Json.str "a"), ("result", Json.num 1)]) ∧
    cjsClassify (Json.obj [("id", Json.str "b")]) =
      classify (Json.obj [("id", Json.str "b")]) :=
  ⟨c10_copies_amended.2 (Json.obj [("id", Json.str "a"), ("result", Json.num 1)])
      (by
        intro r h
        rw [show getField (Json.obj [("id", Json.str "a"), ("result", Json.num 1)])
              "result" = some (Json.num 1) from rfl] at h
        injection h with h'
        subst h'
        rfl)
      (by
        intro er h
        rw [show getField (Json.obj [("id", Json.str "a"), ("result", Json.num 1)])
              "error" = none from rfl] at h
        exact Option.noConfusion h),
   c10_copies_amended.1 (Json.obj [("id", Json.str "b")])⟩
